import Mathlib

/-!
Verification of the claims-registry (proof-of-existence pallet) and the
lesson8 template pallet of the repository. The poe pallet's implementation
file (pallets/poe/src/lib.rs) is not part of the source snapshot — only its
test suite is — so the three registry operations are modelled from the
specification (sections 4.1, 4.2, 7) and checked against the behaviour the
tests pin down. The lesson8 template pallet's lib.rs is present and is
embedded directly.
-/

/-- Byte-sequence key identifying a claim. -/
abbrev Fingerprint := List Nat

/-- Authenticated caller identity (u64 account ids in the tests). -/
abbrev AccountId := Nat

/-- Monotonically non-decreasing height supplied by the Clock Source. -/
abbrev Height := Nat

/-- The Claims Store: a keyed table from fingerprint to owner and height,
modelled as an association list. -/
abbrev Store := List (Fingerprint × AccountId × Height)

/-- Lookup of a fingerprint entry: first entry with the matching key. -/
def Store.get : Store → Fingerprint → Option (AccountId × Height)
  | [], _ => none
  | (g, o, h) :: s, f => if g = f then some (o, h) else Store.get s f

/-- Membership test for a fingerprint, derived from lookup. -/
def Store.containsKey (s : Store) (f : Fingerprint) : Bool :=
  (Store.get s f).isSome

/-- Removal of the entry of a fingerprint. -/
def Store.remove : Store → Fingerprint → Store
  | [], _ => []
  | (g, o, h) :: s, f =>
      if g = f then Store.remove s f else (g, o, h) :: Store.remove s f

/-- Unconditional overwrite of a fingerprint entry. -/
def Store.insert (s : Store) (f : Fingerprint) (o : AccountId) (h : Height) : Store :=
  (f, o, h) :: Store.remove s f

/-- Error taxonomy of the claims registry (spec section 7). -/
inductive PoeError
  | ProofTooLong
  | ProofAlreadyExist
  | ClaimNotExist
  | NotClaimOwner
  deriving DecidableEq

/-- Notifications emitted on successful operations. -/
inductive PoeEvent
  | ClaimCreated (caller : AccountId) (f : Fingerprint)
  | ClaimRevoked (caller : AccountId) (f : Fingerprint)
  | ClaimTransferred (caller : AccountId) (newOwner : AccountId) (f : Fingerprint)
  deriving DecidableEq

/-- Configuration of the registry: the fingerprint length bound, kept as a
configurable constant as the spec directs. -/
structure PoeConfig where
  MAX_FINGERPRINT_LEN : Nat
  deriving DecidableEq

/-- Modelled from the spec: pallets/poe/src/lib.rs is missing from the source
snapshot, so create_claim follows spec section 4.2 — length check first, then
existence check, then insert of (caller, current height) and a claim-created
event carrying the caller and the fingerprint. -/
def create_claim (cfg : PoeConfig) (s : Store) (caller : AccountId) (f : Fingerprint)
    (h : Height) : Except PoeError (Store × PoeEvent) :=
  if cfg.MAX_FINGERPRINT_LEN < f.length then .error .ProofTooLong
  else if Store.containsKey s f then .error .ProofAlreadyExist
  else .ok (Store.insert s f caller h, .ClaimCreated caller f)

/-- Modelled from the spec: pallets/poe/src/lib.rs is missing from the source
snapshot, so revoke_claim follows spec section 4.2 — absence fails with
ClaimNotExist, a foreign owner fails with NotClaimOwner, otherwise the entry
is removed and a claim-revoked event is emitted. -/
def revoke_claim (s : Store) (caller : AccountId) (f : Fingerprint) :
    Except PoeError (Store × PoeEvent) :=
  match Store.get s f with
  | none => .error .ClaimNotExist
  | some (owner, _) =>
      if owner ≠ caller then .error .NotClaimOwner
      else .ok (Store.remove s f, .ClaimRevoked caller f)

/-- Modelled from the spec: pallets/poe/src/lib.rs is missing from the source
snapshot, so transfer_claim follows spec section 4.2 — absence fails with
ClaimNotExist, a foreign owner fails with NotClaimOwner, otherwise the entry
is overwritten with the new owner and the current height and a
claim-transferred event is emitted. -/
def transfer_claim (s : Store) (caller : AccountId) (f : Fingerprint)
    (newOwner : AccountId) (h : Height) : Except PoeError (Store × PoeEvent) :=
  match Store.get s f with
  | none => .error .ClaimNotExist
  | some (owner, _) =>
      if owner ≠ caller then .error .NotClaimOwner
      else .ok (Store.insert s f newOwner h, .ClaimTransferred caller newOwner f)

/-- One operation of the Claim Operation Processor. -/
inductive PoeOp
  | create (caller : AccountId) (f : Fingerprint)
  | revoke (caller : AccountId) (f : Fingerprint)
  | transfer (caller : AccountId) (f : Fingerprint) (newOwner : AccountId)
  deriving DecidableEq

/-- Dispatch of one operation at the height supplied by the Clock Source. -/
def runOp (cfg : PoeConfig) (s : Store) : PoeOp → Height → Except PoeError (Store × PoeEvent)
  | .create c f, h => create_claim cfg s c f h
  | .revoke c f, _ => revoke_claim s c f
  | .transfer c f nw, h => transfer_claim s c f nw h

/-- Store after one operation: the updated snapshot on success, the unchanged
snapshot on failure. -/
def stepOp (cfg : PoeConfig) (s : Store) (op : PoeOp) (h : Height) : Store :=
  match runOp cfg s op h with
  | .ok r => r.1
  | .error _ => s

/-- Store after a sequence of operations, each paired with the height the
Clock Source supplied for it. -/
def runOps (cfg : PoeConfig) (s : Store) : List (PoeOp × Height) → Store
  | [] => s
  | (op, h) :: ts => runOps cfg (stepOp cfg s op h) ts

/-- Relational execution of the Processor over an operation sequence; one
execution of the host applying one operation after the other. -/
inductive Exec (cfg : PoeConfig) : Store → List (PoeOp × Height) → Store → Prop
  | nil (s : Store) : Exec cfg s [] s
  | step (s : Store) (op : PoeOp) (h : Height) (ts : List (PoeOp × Height)) (r : Store) :
      Exec cfg (stepOp cfg s op h) ts r → Exec cfg s ((op, h) :: ts) r

-- Store lemmas

theorem Store.get_remove (s : Store) (f g : Fingerprint) :
    Store.get (Store.remove s f) g = if f = g then none else Store.get s g := by
  induction s with
  | nil => by_cases hfg : f = g <;> simp [Store.remove, Store.get, hfg]
  | cons e s ih =>
      obtain ⟨k, o, h⟩ := e
      by_cases hkf : k = f
      · subst hkf
        by_cases hkg : k = g
        · subst hkg
          simp [Store.remove, Store.get, ih]
        · simp [Store.remove, Store.get, hkg, ih]
      · by_cases hkg : k = g
        · subst hkg
          have hfk : ¬ f = k := fun hh => hkf hh.symm
          simp [Store.remove, Store.get, hkf, hfk]
        · simp [Store.remove, Store.get, hkf, hkg, ih]

theorem Store.get_insert (s : Store) (f g : Fingerprint) (o : AccountId) (h : Height) :
    Store.get (Store.insert s f o h) g = if f = g then some (o, h) else Store.get s g := by
  by_cases hfg : f = g <;> simp [Store.insert, Store.get, hfg, Store.get_remove]

-- Claim theorems

/-- C1: for every operation and every starting Store, a failure leaves the
Store exactly as it was, and repeating the failed operation neither mutates
the Store nor changes the reported error. -/
theorem poe_failure_leaves_store_unchanged (cfg : PoeConfig) (s : Store) (op : PoeOp)
    (h : Height) (e : PoeError) (hfail : runOp cfg s op h = .error e) :
    stepOp cfg s op h = s ∧ stepOp cfg (stepOp cfg s op h) op h = s
      ∧ runOp cfg (stepOp cfg s op h) op h = .error e := by
  have h1 : stepOp cfg s op h = s := by unfold stepOp; rw [hfail]
  exact ⟨h1, by rw [h1, h1], by rw [h1, hfail]⟩

/-- Witness for C1 at a concrete failing revoke on the empty Store. -/
theorem poe_failure_leaves_store_unchanged_witness :
    runOp ⟨6⟩ [] (PoeOp.revoke 1 [0, 1]) 0 = .error .ClaimNotExist
      ∧ stepOp ⟨6⟩ [] (PoeOp.revoke 1 [0, 1]) 0 = [] :=
  ⟨rfl, (poe_failure_leaves_store_unchanged ⟨6⟩ [] (PoeOp.revoke 1 [0, 1]) 0
      PoeError.ClaimNotExist rfl).1⟩

/-- C2: for a fingerprint within the length bound and absent from the Store,
create_claim succeeds, the Store afterwards maps the fingerprint to the caller
and the height supplied at call time, and a claim-created event carrying the
caller and fingerprint is emitted. -/
theorem poe_create_claim_ok (cfg : PoeConfig) (s : Store) (c : AccountId)
    (f : Fingerprint) (H : Height)
    (hlen : f.length ≤ cfg.MAX_FINGERPRINT_LEN) (habsent : Store.get s f = none) :
    create_claim cfg s c f H = .ok (Store.insert s f c H, .ClaimCreated c f)
      ∧ Store.get (Store.insert s f c H) f = some (c, H) := by
  constructor
  · simp [create_claim, Store.containsKey, habsent, Nat.not_lt.mpr hlen]
  · simp [Store.get_insert]

/-- Witness for C2: creating the claim of the test create_claim_works. -/
theorem poe_create_claim_ok_witness :
    ([0, 1] : Fingerprint).length ≤ (6 : Nat)
      ∧ Store.get [] [0, 1] = none
      ∧ create_claim ⟨6⟩ [] 1 [0, 1] 1
          = .ok (Store.insert [] [0, 1] 1 1, .ClaimCreated 1 [0, 1])
      ∧ Store.get (Store.insert [] [0, 1] 1 1) [0, 1] = some (1, 1) :=
  ⟨by decide, rfl,
    (poe_create_claim_ok ⟨6⟩ [] 1 [0, 1] 1 (by decide) rfl).1,
    (poe_create_claim_ok ⟨6⟩ [] 1 [0, 1] 1 (by decide) rfl).2⟩

/-- C3: for a fingerprint within the length bound, a create_claim immediately
followed by a second create_claim for the same fingerprint fails with
ProofAlreadyExist, whatever the two callers are and whatever the starting
Store was. -/
theorem poe_create_claim_duplicate_fails (cfg : PoeConfig) (s : Store)
    (c c2 : AccountId) (f : Fingerprint) (h1 h2 : Height)
    (hlen : f.length ≤ cfg.MAX_FINGERPRINT_LEN) :
    create_claim cfg (stepOp cfg s (PoeOp.create c f) h1) c2 f h2
      = .error .ProofAlreadyExist := by
  have key : Store.containsKey (stepOp cfg s (PoeOp.create c f) h1) f = true := by
    unfold stepOp runOp create_claim
    rcases hget : Store.get s f with _ | p
    · simp [Store.containsKey, hget, Nat.not_lt.mpr hlen, Store.get_insert]
    · simp [Store.containsKey, hget, Nat.not_lt.mpr hlen]
  simp [create_claim, key, Nat.not_lt.mpr hlen]

/-- Witness for C3: the duplicate create of the test
create_claim_failed_when_claim_already_exist. -/
theorem poe_create_claim_duplicate_fails_witness :
    ([0, 1] : Fingerprint).length ≤ (6 : Nat)
      ∧ create_claim ⟨6⟩ (stepOp ⟨6⟩ [] (PoeOp.create 1 [0, 1]) 1) 1 [0, 1] 1
          = .error .ProofAlreadyExist :=
  ⟨by decide, poe_create_claim_duplicate_fails ⟨6⟩ [] 1 1 [0, 1] 1 1 (by decide)⟩

/-- C4: an overlong fingerprint always fails with ProofTooLong and leaves the
Store unchanged, even when an entry for it is already present, and the test
evidence (length 2 accepted, length 8 rejected) places the bound in the
interval from 2 to 7. -/
theorem poe_create_claim_too_long (cfg : PoeConfig) (s : Store) (c : AccountId)
    (f : Fingerprint) (hh : Height)
    (hlen : cfg.MAX_FINGERPRINT_LEN < f.length)
    (hacc : ∃ r, create_claim cfg [] 1 [0, 1] 0 = .ok r)
    (hrej : create_claim cfg [] 1 [0, 1, 2, 4, 5, 6, 7, 8] 0 = .error .ProofTooLong) :
    create_claim cfg s c f hh = .error .ProofTooLong
      ∧ stepOp cfg s (PoeOp.create c f) hh = s
      ∧ 2 ≤ cfg.MAX_FINGERPRINT_LEN ∧ cfg.MAX_FINGERPRINT_LEN ≤ 7 := by
  have hmain : create_claim cfg s c f hh = .error .ProofTooLong := by
    simp [create_claim, hlen]
  refine ⟨hmain, by simp [stepOp, runOp, hmain], ?_, ?_⟩
  · by_contra hlt
    obtain ⟨r, hr⟩ := hacc
    rw [create_claim, if_pos (by simpa using Nat.lt_of_not_le hlt)] at hr
    exact absurd hr (by simp)
  · by_contra hgt
    rw [create_claim, if_neg (by simp; omega)] at hrej
    rw [if_neg (by simp [Store.containsKey, Store.get])] at hrej
    exact absurd hrej (by simp)

/-- Witness for C4: the length-8 fingerprint of the test
create_claim_failed_when_claim_is_too_long, on a Store already holding an
entry for that same fingerprint. -/
theorem poe_create_claim_too_long_witness :
    create_claim ⟨6⟩ [([0, 1, 2, 4, 5, 6, 7, 8], 1, 0)] 1 [0, 1, 2, 4, 5, 6, 7, 8] 3
        = .error .ProofTooLong
      ∧ stepOp ⟨6⟩ [([0, 1, 2, 4, 5, 6, 7, 8], 1, 0)]
          (PoeOp.create 1 [0, 1, 2, 4, 5, 6, 7, 8]) 3 = [([0, 1, 2, 4, 5, 6, 7, 8], 1, 0)]
      ∧ 2 ≤ (6 : Nat) ∧ (6 : Nat) ≤ 7 :=
  poe_create_claim_too_long ⟨6⟩ [([0, 1, 2, 4, 5, 6, 7, 8], 1, 0)] 1
    [0, 1, 2, 4, 5, 6, 7, 8] 3 (by decide) ⟨_, rfl⟩ rfl

/-- C5: revoke_claim fails with ClaimNotExist on an absent fingerprint, fails
with NotClaimOwner when the stored owner differs from the caller, and
otherwise removes the entry, leaves the fingerprint unclaimed, and emits a
claim-revoked event. -/
theorem poe_revoke_claim_spec (s : Store) (c : AccountId) (f : Fingerprint) :
    (Store.get s f = none → revoke_claim s c f = .error .ClaimNotExist)
      ∧ (∀ o h, Store.get s f = some (o, h) → o ≠ c →
          revoke_claim s c f = .error .NotClaimOwner)
      ∧ (∀ h, Store.get s f = some (c, h) →
          revoke_claim s c f = .ok (Store.remove s f, .ClaimRevoked c f)
            ∧ Store.get (Store.remove s f) f = none) := by
  refine ⟨fun hnone => ?_, fun o h hsome hne => ?_, fun h hsome => ⟨?_, ?_⟩⟩
  · simp [revoke_claim, hnone]
  · simp [revoke_claim, hsome, hne]
  · simp [revoke_claim, hsome]
  · simp [Store.get_remove]

/-- Witness for C5 covering its three branches at concrete Stores, matching
the tests revoke_claim_failed_when_is_not_exist,
revoke_claim_failed_with_wrong_owner and revoke_claim_works. -/
theorem poe_revoke_claim_spec_witness :
    revoke_claim [] 1 [0, 1] = .error .ClaimNotExist
      ∧ revoke_claim [([0, 1], 1, 1)] 2 [0, 1] = .error .NotClaimOwner
      ∧ revoke_claim [([0, 1], 1, 1)] 1 [0, 1]
          = .ok (Store.remove [([0, 1], 1, 1)] [0, 1], .ClaimRevoked 1 [0, 1])
      ∧ Store.get (Store.remove [([0, 1], 1, 1)] [0, 1]) [0, 1] = none :=
  ⟨(poe_revoke_claim_spec [] 1 [0, 1]).1 rfl,
    (poe_revoke_claim_spec [([0, 1], 1, 1)] 2 [0, 1]).2.1 1 1 rfl (by decide),
    ((poe_revoke_claim_spec [([0, 1], 1, 1)] 1 [0, 1]).2.2 1 rfl).1,
    ((poe_revoke_claim_spec [([0, 1], 1, 1)] 1 [0, 1]).2.2 1 rfl).2⟩

/-- C6: when the caller owns the fingerprint, transfer_claim succeeds for any
new owner, the caller itself included, and the entry afterwards holds the new
owner and the height supplied at transfer time; a claim-transferred event is
emitted. -/
theorem poe_transfer_claim_ok (s : Store) (c newOwner : AccountId) (f : Fingerprint)
    (h0 H2 : Height) (hown : Store.get s f = some (c, h0)) :
    transfer_claim s c f newOwner H2
        = .ok (Store.insert s f newOwner H2, .ClaimTransferred c newOwner f)
      ∧ Store.get (Store.insert s f newOwner H2) f = some (newOwner, H2) := by
  constructor
  · simp [transfer_claim, hown]
  · simp [Store.get_insert]

/-- Witness for C6: the transfer of the test transfer_claim_works, at a
transfer height later than the creation height, plus a self-transfer that
still re-stamps the height. -/
theorem poe_transfer_claim_ok_witness :
    transfer_claim [([0, 1], 1, 1)] 1 [0, 1] 2 5
        = .ok (Store.insert [([0, 1], 1, 1)] [0, 1] 2 5, .ClaimTransferred 1 2 [0, 1])
      ∧ Store.get (Store.insert [([0, 1], 1, 1)] [0, 1] 2 5) [0, 1] = some (2, 5)
      ∧ Store.get (Store.insert [([0, 1], 1, 1)] [0, 1] 1 5) [0, 1] = some (1, 5) :=
  ⟨(poe_transfer_claim_ok [([0, 1], 1, 1)] 1 2 [0, 1] 1 5 rfl).1,
    (poe_transfer_claim_ok [([0, 1], 1, 1)] 1 2 [0, 1] 1 5 rfl).2,
    (poe_transfer_claim_ok [([0, 1], 1, 1)] 1 1 [0, 1] 1 5 rfl).2⟩

/-- C7: transfer_claim fails with ClaimNotExist on an absent fingerprint and
with NotClaimOwner when an entry exists whose stored owner differs from the
caller. -/
theorem poe_transfer_claim_fails (s : Store) (c newOwner : AccountId)
    (f : Fingerprint) (H2 : Height) :
    (Store.get s f = none → transfer_claim s c f newOwner H2 = .error .ClaimNotExist)
      ∧ (∀ o h0, Store.get s f = some (o, h0) → o ≠ c →
          transfer_claim s c f newOwner H2 = .error .NotClaimOwner) := by
  refine ⟨fun hnone => ?_, fun o h0 hsome hne => ?_⟩
  · simp [transfer_claim, hnone]
  · simp [transfer_claim, hsome, hne]

/-- Witness for C7 covering both failure branches at concrete Stores,
matching the two transfer-failure tests. -/
theorem poe_transfer_claim_fails_witness :
    transfer_claim [] 1 [0] 2 0 = .error .ClaimNotExist
      ∧ transfer_claim [([0], 1, 1)] 2 [0] 2 0 = .error .NotClaimOwner :=
  ⟨(poe_transfer_claim_fails [] 1 2 [0] 0).1 rfl,
    (poe_transfer_claim_fails [([0], 1, 1)] 2 2 [0] 0).2 1 1 rfl (by decide)⟩

-- Height-monotonicity helpers

theorem create_claim_ok_store (cfg : PoeConfig) (s : Store) (c : AccountId)
    (g : Fingerprint) (h : Height) (r : Store × PoeEvent)
    (hr : create_claim cfg s c g h = .ok r) : r.1 = Store.insert s g c h := by
  unfold create_claim at hr
  split at hr
  · exact absurd hr (by simp)
  · split at hr
    · exact absurd hr (by simp)
    · cases hr; rfl

theorem revoke_claim_ok_store (s : Store) (c : AccountId) (g : Fingerprint)
    (r : Store × PoeEvent) (hr : revoke_claim s c g = .ok r) :
    r.1 = Store.remove s g := by
  unfold revoke_claim at hr
  split at hr
  · exact absurd hr (by simp)
  · split at hr
    · exact absurd hr (by simp)
    · cases hr; rfl

theorem transfer_claim_ok_store (s : Store) (c nw : AccountId) (g : Fingerprint)
    (h : Height) (r : Store × PoeEvent) (hr : transfer_claim s c g nw h = .ok r) :
    r.1 = Store.insert s g nw h := by
  unfold transfer_claim at hr
  split at hr
  · exact absurd hr (by simp)
  · split at hr
    · exact absurd hr (by simp)
    · cases hr; rfl

theorem stepOp_height_bound (cfg : PoeConfig) (s : Store) (op : PoeOp)
    (h h0 : Height) (f : Fingerprint) (hstep : h0 ≤ h)
    (hs : ∀ o h1, Store.get s f = some (o, h1) → h0 ≤ h1) :
    ∀ o h1, Store.get (stepOp cfg s op h) f = some (o, h1) → h0 ≤ h1 := by
  intro o h1 hget
  rcases hrun : runOp cfg s op h with e | r
  · rw [stepOp, hrun] at hget
    exact hs o h1 hget
  · rw [stepOp, hrun] at hget
    replace hget : Store.get r.1 f = some (o, h1) := hget
    cases op with
    | create c g =>
        rw [create_claim_ok_store cfg s c g h r hrun, Store.get_insert] at hget
        by_cases hgf : g = f
        · rw [if_pos hgf] at hget
          cases hget; exact hstep
        · rw [if_neg hgf] at hget
          exact hs o h1 hget
    | revoke c g =>
        rw [revoke_claim_ok_store s c g r hrun, Store.get_remove] at hget
        by_cases hgf : g = f
        · rw [if_pos hgf] at hget; cases hget
        · rw [if_neg hgf] at hget
          exact hs o h1 hget
    | transfer c g nw =>
        rw [transfer_claim_ok_store s c nw g h r hrun, Store.get_insert] at hget
        by_cases hgf : g = f
        · rw [if_pos hgf] at hget
          cases hget; exact hstep
        · rw [if_neg hgf] at hget
          exact hs o h1 hget

theorem runOps_height_bound (cfg : PoeConfig) (f : Fingerprint) (h0 : Height) :
    ∀ (ts : List (PoeOp × Height)) (s : Store),
      (∀ x ∈ ts, h0 ≤ x.2) →
      (∀ o h1, Store.get s f = some (o, h1) → h0 ≤ h1) →
      ∀ o h1, Store.get (runOps cfg s ts) f = some (o, h1) → h0 ≤ h1 := by
  intro ts
  induction ts with
  | nil => intro s _ hs; exact hs
  | cons p ts ih =>
      obtain ⟨op, h⟩ := p
      intro s hts hs
      exact ih (stepOp cfg s op h)
        (fun x hx => hts x (List.mem_cons_of_mem _ hx))
        (stepOp_height_bound cfg s op h h0 f (hts (op, h) (List.mem_cons_self _ _)) hs)

theorem chain_le_mem {h0 : Height} {l : List Height}
    (hc : List.Chain (· ≤ ·) h0 l) : ∀ x ∈ l, h0 ≤ x := by
  induction l generalizing h0 with
  | nil => intro x hx; exact absurd hx (List.not_mem_nil x)
  | cons a l ih =>
      rcases List.chain_cons.mp hc with ⟨ha, hl⟩
      intro x hx
      rcases List.mem_cons.mp hx with hxa | hxl
      · exact hxa ▸ ha
      · exact le_trans ha (ih hl x hxl)

/-- C8: while heights arrive non-decreasingly, the stored height of a
fingerprint never decreases across any operation sequence; whatever entry the
fingerprint holds at the end records a height at least the one it started
with. -/
theorem poe_registered_at_monotone (cfg : PoeConfig) (s : Store) (f : Fingerprint)
    (o : AccountId) (h0 : Height) (ts : List (PoeOp × Height))
    (o1 : AccountId) (h1 : Height)
    (hstart : Store.get s f = some (o, h0))
    (hmono : List.Chain (· ≤ ·) h0 (ts.map Prod.snd))
    (hend : Store.get (runOps cfg s ts) f = some (o1, h1)) :
    h0 ≤ h1 := by
  refine runOps_height_bound cfg f h0 ts s ?_ ?_ o1 h1 hend
  · intro x hx
    exact chain_le_mem hmono x.2 (List.mem_map_of_mem Prod.snd hx)
  · intro o2 h2 hget
    rw [hstart] at hget
    cases hget
    exact le_refl h0

/-- Witness for C8: a transfer at height 5 of a claim created at height 3
re-stamps the entry to height 5, which is at least 3. -/
theorem poe_registered_at_monotone_witness :
    Store.get [([0, 1], 1, 3)] [0, 1] = some (1, 3)
      ∧ List.Chain (· ≤ ·) 3 ([(PoeOp.transfer 1 [0, 1] 2, 5)].map Prod.snd)
      ∧ Store.get (runOps ⟨6⟩ [([0, 1], 1, 3)] [(PoeOp.transfer 1 [0, 1] 2, 5)]) [0, 1]
          = some (2, 5)
      ∧ (3 : Height) ≤ 5 :=
  ⟨rfl, List.chain_cons.mpr ⟨by decide, List.Chain.nil⟩, rfl,
    poe_registered_at_monotone ⟨6⟩ [([0, 1], 1, 3)] [0, 1] 1 3
      [(PoeOp.transfer 1 [0, 1] 2, 5)] 2 5 rfl
      (List.chain_cons.mpr ⟨by decide, List.Chain.nil⟩) rfl⟩

-- Determinism of the Processor

theorem exec_runOps (cfg : PoeConfig) :
    ∀ (ts : List (PoeOp × Height)) (s : Store), Exec cfg s ts (runOps cfg s ts)
  | [], s => Exec.nil s
  | (op, h) :: ts, s =>
      Exec.step s op h ts (runOps cfg (stepOp cfg s op h) ts)
        (exec_runOps cfg ts (stepOp cfg s op h))

/-- C9: the Processor is deterministic — two executions over the same starting
Store, the same operation sequence and the same supplied heights end in the
same Store. -/
theorem poe_deterministic (cfg : PoeConfig) (s : Store) (ts : List (PoeOp × Height))
    (r1 r2 : Store) (e1 : Exec cfg s ts r1) (e2 : Exec cfg s ts r2) : r1 = r2 := by
  induction e1 generalizing r2 with
  | nil s => cases e2; rfl
  | step s op h ts r hrest ih =>
      cases e2 with
      | step _ _ _ _ _ hrest2 => exact ih r2 hrest2

/-- Witness for C9: two executions of a one-element create sequence from the
empty Store end in the same Store. -/
theorem poe_deterministic_witness :
    Exec ⟨6⟩ [] [(PoeOp.create 1 [0, 1], 5)] (runOps ⟨6⟩ [] [(PoeOp.create 1 [0, 1], 5)])
      ∧ runOps ⟨6⟩ [] [(PoeOp.create 1 [0, 1], 5)] = [([0, 1], 1, 5)] :=
  ⟨exec_runOps ⟨6⟩ [(PoeOp.create 1 [0, 1], 5)] [],
    poe_deterministic ⟨6⟩ [] [(PoeOp.create 1 [0, 1], 5)]
      (runOps ⟨6⟩ [] [(PoeOp.create 1 [0, 1], 5)]) [([0, 1], 1, 5)]
      (exec_runOps ⟨6⟩ [(PoeOp.create 1 [0, 1], 5)] [])
      (Exec.step [] (PoeOp.create 1 [0, 1]) 5 [] [([0, 1], 1, 5)]
        (Exec.nil [([0, 1], 1, 5)]))⟩

-- Lesson8 template pallet (embedded from
-- src/lesson8/substrate-node-template/pallets/template/src/lib.rs)

/-- Storage map Numbers of the template pallet: u64 index to u64 value; a
fresh entry shadows any older one, and a missing key reads as the default 0,
matching the StorageMap declaration. -/
abbrev Numbers := List (Nat × Nat)

/-- Read of Numbers at an index, defaulting to 0. -/
def Numbers.get : Numbers → Nat → Nat
  | [], _ => 0
  | (i, n) :: st, j => if i = j then n else Numbers.get st j

/-- Overwriting insert of Numbers, as StorageMap insert behaves. -/
def Numbers.insert (st : Numbers) (i n : Nat) : Numbers :=
  (i, n) :: st

/-- Origins a dispatchable can receive. -/
inductive Origin
  | signed (who : Nat)
  | root
  | none

/-- Declared error enum of the template pallet. -/
inductive TemplateError
  | NoneValue
  | StorageOverflow
  deriving DecidableEq

/-- Event enum of the template pallet. -/
inductive TemplateEvent
  | NumberAppended (who index number : Nat)
  deriving DecidableEq

/-- Dispatch-level errors: a bad origin from ensure_signed, or one of the
pallet's declared module errors. -/
inductive DispatchError
  | BadOrigin
  | Module (e : TemplateError)
  deriving DecidableEq

/-- The ensure_signed origin check: a signed origin yields its account, any
other origin is a dispatch error. -/
def ensure_signed : Origin → Except DispatchError Nat
  | .signed who => .ok who
  | _ => .error .BadOrigin

/-- The add_number helper: unconditionally writes Numbers at the index and
deposits a NumberAppended event. -/
def add_number (st : Numbers) (who index number : Nat) : Numbers × TemplateEvent :=
  (Numbers.insert st index number, .NumberAppended who index number)

/-- The save_number dispatchable: checks the origin is signed, then calls
add_number and returns Ok. -/
def save_number (st : Numbers) (origin : Origin) (index number : Nat) :
    Except DispatchError (Numbers × TemplateEvent) :=
  match ensure_signed origin with
  | .error e => .error e
  | .ok who => .ok (add_number st who index number)

/-- C10: save_number always succeeds for a signed origin, unconditionally
overwriting the indexed slot and emitting NumberAppended with the signer,
index and number; no dispatch of save_number ever returns the declared module
errors NoneValue or StorageOverflow — the only possible failure is a bad
origin. -/
theorem template_save_number_total (st : Numbers) (who index number : Nat) :
    save_number st (Origin.signed who) index number
        = .ok (Numbers.insert st index number, .NumberAppended who index number)
      ∧ Numbers.get (Numbers.insert st index number) index = number
      ∧ ∀ (o : Origin) (i n : Nat),
          (∃ r, save_number st o i n = .ok r)
            ∨ save_number st o i n = .error .BadOrigin := by
  refine ⟨rfl, by simp [Numbers.insert, Numbers.get], fun o i n => ?_⟩
  cases o with
  | signed w => exact Or.inl ⟨_, rfl⟩
  | root => exact Or.inr rfl
  | none => exact Or.inr rfl
